import Mathlib

/-
  Verification development for the metal-snake-web game core.

  The definitions below are a shallow embedding of the JavaScript sources:
    * js/config/constants.js   (CONFIG, Direction, PowerUpType, GameState)
    * js/core/snake.js         (Snake: reset, setDirection, move)
    * js/systems/collision.js  (CollisionSystem)
    * js/core/game.js          (Game.getRandomPosition, Game.handleFoodCollection)
    * systems/combo.js         (ComboSystem)
    * systems/powerup.js       (PowerUp.apply / expire, PowerUpManager.update)

  JavaScript numbers are modelled as ℚ where fractional arithmetic occurs
  (all values involved -- integers, multiples of 1/4 and 1/2 -- are exact in
  IEEE doubles, so ℚ is a faithful model), as ℤ for grid coordinates, and as
  Nat for frame counters.  Math.round is floor (x + 1/2) (JS rounds half
  toward +infinity).  Randomness (Math.random) is modelled by explicit
  sample streams supplied as arguments.
-/

namespace MetalSnake

/-- A grid cell, js object form: an integer pair. Structural equality. -/
structure Cell where
  x : Int
  y : Int
deriving DecidableEq, Repr

/-- Direction enumeration from js/config/constants.js. -/
inductive Direction where
  | up
  | down
  | left
  | right
deriving DecidableEq, Repr

/-- Direction.opposite from js/config/constants.js (total on the four values). -/
def Direction.opposite : Direction → Direction
  | .up => .down
  | .down => .up
  | .left => .right
  | .right => .left

/-- Grid dimensions used by Snake.move (fields GRID_COLS, GRID_ROWS of CONFIG). -/
structure GridConfig where
  GRID_COLS : Int
  GRID_ROWS : Int
deriving DecidableEq, Repr

/-- The Snake entity state from js/core/snake.js (gameplay-relevant fields;
rendering-only field size is omitted, shrinkActive is tracked in the game
state below where the power-up system mutates it). -/
structure SnakeS where
  body : List Cell
  direction : Direction
  nextDirection : Direction
  actualDirection : Direction
  invincible : Bool
deriving DecidableEq, Repr

/-- Snake.reset from js/core/snake.js: START_LENGTH segments, head at the
grid center, all three direction fields RIGHT, not invincible.
SNAKE_CONFIG.START_LENGTH is referenced by snake.js but its defining module
revision is absent from the sources; the unit tests (snake.test.js) pin the
start length to 3, which this definition uses. -/
def Snake.reset (cfg : GridConfig) : SnakeS :=
  let startX : Int := cfg.GRID_COLS / 2
  let startY : Int := cfg.GRID_ROWS / 2
  { body := [⟨startX, startY⟩, ⟨startX - 1, startY⟩, ⟨startX - 2, startY⟩]
    direction := .right
    nextDirection := .right
    actualDirection := .right
    invincible := false }

/-- Snake.setDirection from js/core/snake.js: buffer the request unless it is
the 180-degree opposite of the last actually applied direction. -/
def Snake.setDirection (s : SnakeS) (newDir : Direction) : SnakeS :=
  if newDir ≠ Direction.opposite s.actualDirection then
    { s with nextDirection := newDir }
  else s

/-- The direction-commit prefix of Snake.move (lines 38-42 of snake.js):
adopt the buffered direction if it is not a reversal. -/
def Snake.commitDirection (s : SnakeS) : SnakeS :=
  if s.nextDirection ≠ Direction.opposite s.actualDirection then
    { s with direction := s.nextDirection, actualDirection := s.nextDirection }
  else s

/-- One unit step of the head cell in a direction (the switch in Snake.move). -/
def stepCell (d : Direction) (c : Cell) : Cell :=
  match d with
  | .up => ⟨c.x, c.y - 1⟩
  | .down => ⟨c.x, c.y + 1⟩
  | .left => ⟨c.x - 1, c.y⟩
  | .right => ⟨c.x + 1, c.y⟩

/-- The modulo wrap applied to the head when invincible (lines 60-61 of
snake.js).  Both js operands are nonnegative there, so js % agrees with
Int.emod. -/
def wrapCell (cfg : GridConfig) (c : Cell) : Cell :=
  ⟨(c.x + cfg.GRID_COLS) % cfg.GRID_COLS, (c.y + cfg.GRID_ROWS) % cfg.GRID_ROWS⟩

/-- Snake.move from js/core/snake.js.  Returns the mutated snake together
with the js boolean return value (false = fatal collision, body untouched;
note the direction commit has already happened in that case, exactly as in
the source).  foodPos is the current food cell, obstacles the obstacle set. -/
def Snake.move (cfg : GridConfig) (s : SnakeS) (foodPos : Cell)
    (obstacles : List Cell) : SnakeS × Bool :=
  let s1 := Snake.commitDirection s
  let head := stepCell s1.direction (s1.body.headD ⟨0, 0⟩)
  if s1.invincible = false ∧
      (head.x < 0 ∨ head.x ≥ cfg.GRID_COLS ∨ head.y < 0 ∨ head.y ≥ cfg.GRID_ROWS) then
    (s1, false)
  else
    let head2 := if s1.invincible then wrapCell cfg head else head
    if s1.invincible = false ∧
        (s1.body.any (fun seg => seg = head2) ∨ obstacles.any (fun ob => ob = head2)) then
      (s1, false)
    else
      let body2 := if head2 = foodPos then head2 :: s1.body
                   else (head2 :: s1.body).dropLast
      ({ s1 with body := body2 }, true)

/-- GameState enumeration from js/config/constants.js. -/
inductive GameState where
  | menu
  | play
  | pause
  | game_over
  | highscores
  | settings
deriving DecidableEq, Repr

/-- PowerUpType enumeration from js/config/constants.js. -/
inductive PowerUpType where
  | speed_boost
  | invincibility
  | score_multiplier
  | magnet
  | shrink
  | time_slow
deriving DecidableEq, Repr

/-- Math.round of js for the nonnegative values arising here: half rounds
toward +infinity. -/
def jsRound (q : ℚ) : ℤ := ⌊q + 1 / 2⌋

/-- Lookup in a js object modelled as an association list. -/
def lookupEntry {α β : Type} [DecidableEq α] (m : List (α × β)) (k : α) : Option β :=
  (m.find? (fun e => e.1 = k)).map Prod.snd

/-- Property assignment obj[k] = v on a js object: replace in place if the
key exists, append otherwise (js objects preserve insertion order). -/
def setEntry {α β : Type} [DecidableEq α] (m : List (α × β)) (k : α) (v : β) :
    List (α × β) :=
  match m with
  | [] => [(k, v)]
  | e :: rest => if e.1 = k then (k, v) :: rest else e :: setEntry rest k v

/-- Property deletion on a js object: drop the entries with the given key. -/
def removeEntry {α β : Type} [DecidableEq α] : List (α × β) → α → List (α × β)
  | [], _ => []
  | e :: rest, k => if e.1 = k then removeEntry rest k else e :: removeEntry rest k

/-- The slice of mutable game state touched by the power-up subsystem and
food scoring: the mutable CONFIG fields (GAME_SPEED is mutated in place by
power-ups, js/config/constants.js), the Game fields, the Snake flag fields,
and the PowerUpManager fields (powerUps as position-kind pairs,
activePowerUps as a kind-to-remaining-frames object, spawnTimer,
magnetActive). -/
structure GameS where
  state : GameState
  GAME_SPEED : ℚ
  BASE_GAME_SPEED : ℚ
  POWERUP_DURATION : Nat
  POWERUP_SPAWN_INTERVAL : Nat
  POWERUP_COUNT : Nat
  scoreMultiplier : ℚ
  score : ℤ
  snakeInvincible : Bool
  snakeShrinkActive : Bool
  magnetActive : Bool
  snakeBody : List Cell
  foodPos : Cell
  obstacles : List Cell
  powerUps : List (Cell × PowerUpType)
  activePowerUps : List (PowerUpType × Nat)
  spawnTimer : Nat
deriving DecidableEq, Repr

/-- PowerUp.apply from js/systems/powerup.js (lines 26-72): the per-kind
effect switch followed by activePowerUps[type] = duration, where duration
was captured as config.POWERUP_DURATION at pickup construction. -/
def PowerUp.apply (t : PowerUpType) (g : GameS) : GameS :=
  let g1 :=
    match t with
    | .speed_boost => { g with GAME_SPEED := g.GAME_SPEED + 3 }
    | .invincibility => { g with snakeInvincible := true }
    | .score_multiplier => { g with scoreMultiplier := 2 }
    | .magnet => { g with magnetActive := true }
    | .shrink => { g with snakeShrinkActive := true }
    | .time_slow => { g with GAME_SPEED := g.GAME_SPEED * (1 / 4) }
  { g1 with activePowerUps := setEntry g1.activePowerUps t g1.POWERUP_DURATION }

/-- PowerUp.expire from js/systems/powerup.js (lines 74-113): the per-kind
reversal switch followed by deletion of the activePowerUps entry.
PowerUpManager.expirePowerUp (lines 314-342) performs the identical
mutations and is embedded by this same definition. -/
def PowerUp.expire (t : PowerUpType) (g : GameS) : GameS :=
  let g1 :=
    match t with
    | .speed_boost =>
        { g with GAME_SPEED := max g.BASE_GAME_SPEED (g.GAME_SPEED - 3) }
    | .invincibility => { g with snakeInvincible := false }
    | .score_multiplier => { g with scoreMultiplier := 1 }
    | .magnet => { g with magnetActive := false }
    | .shrink => { g with snakeShrinkActive := false }
    | .time_slow => { g with GAME_SPEED := g.BASE_GAME_SPEED }
  { g1 with activePowerUps := removeEntry g1.activePowerUps t }

/-- The per-attempt exclusion test of Game.getRandomPosition (game.js lines
72-81): the sampled cell is acceptable when it collides with none of snake
body, food, obstacles, and (when includePowerUps) the uncollected pickups. -/
def Game.cellFree (g : GameS) (includePowerUps : Bool) (c : Cell) : Bool :=
  let snakeCollision := g.snakeBody.any (fun seg => seg = c)
  let foodCollision := g.foodPos = c
  let obstacleCollision := g.obstacles.any (fun ob => ob = c)
  let powerUpCollision := includePowerUps && g.powerUps.any (fun pu => pu.1 = c)
  !(snakeCollision || foodCollision || obstacleCollision || powerUpCollision)

/-- The bounded rejection-sampling loop shared by Game.getRandomPosition
(game.js lines 65-86) and CollisionSystem.findValidPosition (collision.js
lines 58-74): up to fuel attempts draw successive cells from the sample
stream, the first acceptable one is returned, and exhaustion of the
attempts yields the fallback cell (0, 0). -/
def randomCellLoop (ok : Cell → Bool) (stream : Nat → Cell) : Nat → Nat → Cell
  | 0, _ => ⟨0, 0⟩
  | fuel + 1, i =>
      if ok (stream i) then stream i else randomCellLoop ok stream fuel (i + 1)

/-- Game.getRandomPosition from js/core/game.js (lines 59-87), maxAttempts
100, with the Math.random draws supplied as a stream of sampled cells. -/
def Game.getRandomPosition (g : GameS) (includePowerUps : Bool)
    (stream : Nat → Cell) : Cell :=
  randomCellLoop (Game.cellFree g includePowerUps) stream 100 0

/-- CollisionSystem.isValidPosition from js/systems/collision.js (lines
45-55), with the options flags excludeFood and excludePowerUps. -/
def CollisionSystem.isValidPosition (cfg : GridConfig) (g : GameS)
    (excludeFood excludePowerUps : Bool) (position : Cell) : Bool :=
  if g.snakeBody.any (fun seg => seg = position) then false
  else if position.x < 0 || position.x ≥ cfg.GRID_COLS ||
      position.y < 0 || position.y ≥ cfg.GRID_ROWS then false
  else if g.obstacles.any (fun ob => ob = position) then false
  else if !excludeFood && g.foodPos = position then false
  else if !excludePowerUps && g.powerUps.any (fun pu => pu.1 = position) then false
  else true

/-- CollisionSystem.findValidPosition from js/systems/collision.js (lines
57-74): the same 100-attempt rejection loop over isValidPosition, with the
same fallback (0, 0). -/
def CollisionSystem.findValidPosition (cfg : GridConfig) (g : GameS)
    (excludeFood excludePowerUps : Bool) (stream : Nat → Cell) : Cell :=
  randomCellLoop (CollisionSystem.isValidPosition cfg g excludeFood excludePowerUps)
    stream 100 0

/-- The cell obtained from two Math.random draws r1, r2 in [0, 1):
floor (r * GRID_COLS) and floor (r * GRID_ROWS) (game.js lines 68-69,
collision.js lines 62-65). -/
def sampleCell (cfg : GridConfig) (r1 r2 : ℚ) : Cell :=
  ⟨⌊r1 * cfg.GRID_COLS⌋, ⌊r2 * cfg.GRID_ROWS⌋⟩

/-- PowerUpManager.spawnPowerUp from js/systems/powerup.js (lines 294-312):
kind drawn uniformly from the six PowerUpType values (supplied here as the
resolved draw), position from Game.getRandomPosition with
includePowerUps = true, pickup appended to the field list. -/
def PowerUpManager.spawnPowerUp (g : GameS) (stream : Nat → Cell)
    (kind : PowerUpType) : GameS :=
  let pos := Game.getRandomPosition g true stream
  { g with powerUps := g.powerUps ++ [(pos, kind)] }

/-- The spawn section of PowerUpManager.update (powerup.js lines 177-196):
increment the spawn timer; once it reaches POWERUP_SPAWN_INTERVAL, spawn a
pickup when fewer than POWERUP_COUNT are on the field, and reset the timer
to 0 in either case. -/
def PowerUpManager.spawnPhase (g : GameS) (stream : Nat → Cell)
    (kind : PowerUpType) : GameS :=
  let g1 := { g with spawnTimer := g.spawnTimer + 1 }
  if g1.spawnTimer ≥ g1.POWERUP_SPAWN_INTERVAL then
    let g2 :=
      if g1.powerUps.length < g1.POWERUP_COUNT then
        PowerUpManager.spawnPowerUp g1 stream kind
      else g1
    { g2 with spawnTimer := 0 }
  else g1

/-- One step of the active-effects countdown loop (powerup.js lines
199-204): decrement the entry for one kind; at 0 the kind expires
(PowerUpManager.expirePowerUp, whose mutations are PowerUp.expire). -/
def PowerUpManager.decExpireOne (g : GameS) (t : PowerUpType) : GameS :=
  match lookupEntry g.activePowerUps t with
  | none => g
  | some v =>
      let g1 := { g with activePowerUps := setEntry g.activePowerUps t (v - 1) }
      if v - 1 = 0 then PowerUp.expire t g1 else g1

/-- The active-effects section of PowerUpManager.update (powerup.js lines
198-204): iterate over the kinds present, decrementing and expiring. -/
def PowerUpManager.activePhase (g : GameS) : GameS :=
  (g.activePowerUps.map Prod.fst).foldl PowerUpManager.decExpireOne g

/-- One iteration of the collection filter of PowerUpManager.update
(powerup.js lines 208-291): a pickup at the snake head cell is dropped
from the kept list, its effect applied (PowerUp.apply), and a bonus of
round (5 * scoreMultiplier) added to the score, the multiplier being read
after the apply; any other pickup is kept. -/
def collectStep (head : Cell) (acc : GameS × List (Cell × PowerUpType))
    (pu : Cell × PowerUpType) : GameS × List (Cell × PowerUpType) :=
  if pu.1 = head then
    let g1 := PowerUp.apply pu.2 acc.1
    let g2 := { g1 with score := g1.score + jsRound (5 * g1.scoreMultiplier) }
    (g2, acc.2)
  else (acc.1, acc.2 ++ [pu])

/-- The collection section of PowerUpManager.update (powerup.js lines
206-291): this.powerUps = this.powerUps.filter(...), with the side effects
of collectStep on the matching entries. -/
def PowerUpManager.collectPhase (g : GameS) : GameS :=
  let head := g.snakeBody.headD ⟨0, 0⟩
  let r := g.powerUps.foldl (collectStep head) (g, [])
  { r.1 with powerUps := r.2 }

/-- PowerUpManager.update from js/systems/powerup.js (lines 170-292): a
no-op outside the PLAY state, otherwise the spawn, countdown and
collection sections in source order. -/
def PowerUpManager.update (g : GameS) (stream : Nat → Cell)
    (kind : PowerUpType) : GameS :=
  if g.state ≠ GameState.play then g
  else
    PowerUpManager.collectPhase
      (PowerUpManager.activePhase (PowerUpManager.spawnPhase g stream kind))

/-- The ComboSystem state from systems/combo.js. -/
structure ComboSystemS where
  comboCount : Nat
  comboTimer : Nat
  maxComboTimer : Nat
deriving DecidableEq, Repr

/-- ComboSystem.reset: zero count and timer, decay window from config. -/
def ComboSystem.reset (COMBO_DECAY_TIME : Nat) : ComboSystemS :=
  { comboCount := 0, comboTimer := 0, maxComboTimer := COMBO_DECAY_TIME }

/-- ComboSystem.getComboMultiplier: 1 + floor (comboCount / 3) * 0.5. -/
def ComboSystem.getComboMultiplier (c : ComboSystemS) : ℚ :=
  1 + (c.comboCount / 3 : Nat) * (1 / 2)

/-- ComboSystem.update (combo.js lines 14-24): tick the decay timer while
positive, resetting the whole state when it hits exactly 0. -/
def ComboSystem.update (COMBO_DECAY_TIME : Nat) (c : ComboSystemS) : ComboSystemS :=
  if c.comboTimer > 0 then
    let c1 := { c with comboTimer := c.comboTimer - 1 }
    if c1.comboTimer = 0 then ComboSystem.reset COMBO_DECAY_TIME else c1
  else c

/-- ComboSystem.incrementCombo (combo.js lines 26-33): bump the count,
refill the timer, and return the resulting multiplier. -/
def ComboSystem.incrementCombo (c : ComboSystemS) : ComboSystemS × ℚ :=
  let c1 := { c with comboCount := c.comboCount + 1, comboTimer := c.maxComboTimer }
  (c1, ComboSystem.getComboMultiplier c1)

/-- The scoring part of Game.handleFoodCollection (game.js lines
1144-1151): obstacle bonus factor, combo increment, and the rounded
product added to the score.  Returns the updated combo state and the
score delta. -/
def Game.handleFoodCollection (obstaclesEnabled : Bool)
    (OBSTACLE_BONUS scoreMultiplier : ℚ) (c : ComboSystemS) : ComboSystemS × ℤ :=
  let obstacleBonus : ℚ := if obstaclesEnabled then 1 + OBSTACLE_BONUS else 1
  let r := ComboSystem.incrementCombo c
  (r.1, jsRound (obstacleBonus * scoreMultiplier * r.2))

/-- Modelled from the spec: the score formula of section 4.4, written from
the spec words for comparison with the code embedding -- obstacle bonus
factor 1 + OBSTACLE_BONUS when obstacle mode is on else 1, combo
multiplier 1 + floor (comboCount / 3) * 0.5 from the post-increment count,
the product rounded. -/
def specFoodScoreDelta (obstaclesEnabled : Bool)
    (OBSTACLE_BONUS scoreMultiplier : ℚ) (comboCountBefore : Nat) : ℤ :=
  let obstacleBonusFactor : ℚ := if obstaclesEnabled then 1 + OBSTACLE_BONUS else 1
  let comboMultiplier : ℚ := 1 + ((comboCountBefore + 1) / 3 : Nat) * (1 / 2)
  jsRound (obstacleBonusFactor * scoreMultiplier * comboMultiplier)

/-- Operations an external caller can perform on a Snake between rounds:
buffer a direction request, or advance one movement tick. -/
inductive SnakeOp where
  | setDir (d : Direction)
  | tick (food : Cell) (obstacles : List Cell)

/-- Run one snake operation (the state component of Snake.move is kept even
on a fatal tick, exactly as the js object is mutated before the early
returns). -/
def Snake.runOp (cfg : GridConfig) (s : SnakeS) : SnakeOp → SnakeS
  | .setDir d => Snake.setDirection s d
  | .tick food obstacles => (Snake.move cfg s food obstacles).1

/-- Run a sequence of snake operations from a starting state. -/
def Snake.runOps (cfg : GridConfig) (s : SnakeS) (ops : List SnakeOp) : SnakeS :=
  ops.foldl (Snake.runOp cfg) s


section SnakeLemmas

lemma opposite_ne (d : Direction) : Direction.opposite d ≠ d := by
  cases d <;> decide

lemma commitDirection_body (s : SnakeS) :
    (Snake.commitDirection s).body = s.body := by
  unfold Snake.commitDirection; split <;> rfl

lemma commitDirection_invincible (s : SnakeS) :
    (Snake.commitDirection s).invincible = s.invincible := by
  unfold Snake.commitDirection; split <;> rfl

lemma commitDirection_dirEq (s : SnakeS) (h : s.direction = s.actualDirection) :
    (Snake.commitDirection s).direction = (Snake.commitDirection s).actualDirection := by
  unfold Snake.commitDirection; split
  · rfl
  · exact h

lemma move_fst_direction (cfg : GridConfig) (s : SnakeS) (food : Cell)
    (obstacles : List Cell) :
    (Snake.move cfg s food obstacles).1.direction = (Snake.commitDirection s).direction := by
  simp only [Snake.move]
  repeat' split
  all_goals rfl

lemma move_fst_actualDirection (cfg : GridConfig) (s : SnakeS) (food : Cell)
    (obstacles : List Cell) :
    (Snake.move cfg s food obstacles).1.actualDirection =
      (Snake.commitDirection s).actualDirection := by
  simp only [Snake.move]
  repeat' split
  all_goals rfl

lemma move_result (cfg : GridConfig) (s : SnakeS) (food : Cell)
    (obstacles : List Cell) :
    (Snake.move cfg s food obstacles).2 = false ∨
    ∃ h2 : Cell,
      Snake.move cfg s food obstacles =
        ({ Snake.commitDirection s with
            body :=
              if h2 = food then h2 :: (Snake.commitDirection s).body
              else (h2 :: (Snake.commitDirection s).body).dropLast }, true) := by
  simp only [Snake.move]
  split
  · exact Or.inl rfl
  · split <;> split
    · exact Or.inl rfl
    · exact Or.inr ⟨_, rfl⟩
    · exact Or.inl rfl
    · exact Or.inr ⟨_, rfl⟩

lemma setDirection_direction (s : SnakeS) (d : Direction) :
    (Snake.setDirection s d).direction = s.direction := by
  unfold Snake.setDirection; split <;> rfl

lemma setDirection_actualDirection (s : SnakeS) (d : Direction) :
    (Snake.setDirection s d).actualDirection = s.actualDirection := by
  unfold Snake.setDirection; split <;> rfl

lemma runOp_dirEq (cfg : GridConfig) (s : SnakeS) (op : SnakeOp)
    (h : s.direction = s.actualDirection) :
    (Snake.runOp cfg s op).direction = (Snake.runOp cfg s op).actualDirection := by
  cases op with
  | setDir d =>
      simp only [Snake.runOp, setDirection_direction, setDirection_actualDirection]
      exact h
  | tick food obstacles =>
      simp only [Snake.runOp, move_fst_direction, move_fst_actualDirection]
      exact commitDirection_dirEq s h

lemma runOps_dirEq (cfg : GridConfig) (ops : List SnakeOp) :
    ∀ s : SnakeS, s.direction = s.actualDirection →
      (Snake.runOps cfg s ops).direction = (Snake.runOps cfg s ops).actualDirection := by
  induction ops with
  | nil => intro s h; exact h
  | cons op rest ih =>
      intro s h
      exact ih (Snake.runOp cfg s op) (runOp_dirEq cfg s op h)

lemma headD_dropLast_cons {α : Type} (d a : α) (l : List α) (h : l ≠ []) :
    ((a :: l).dropLast).headD d = a := by
  cases l with
  | nil => exact absurd rfl h
  | cons b t => rfl

lemma body_update_facts (h2 food : Cell) (body : List Cell) (hb : body ≠ []) :
    ((if h2 = food then h2 :: body else (h2 :: body).dropLast).length = body.length ∨
      (if h2 = food then h2 :: body else (h2 :: body).dropLast).length = body.length + 1) ∧
    ((if h2 = food then h2 :: body else (h2 :: body).dropLast).length = body.length + 1 ↔
      (if h2 = food then h2 :: body else (h2 :: body).dropLast).headD ⟨0, 0⟩ = food) := by
  split
  · next heq =>
      refine ⟨Or.inr (by simp), ?_⟩
      constructor
      · intro _; simpa using heq
      · intro _; simp
  · next hne =>
      have hlen : ((h2 :: body).dropLast).length = body.length := by
        simp [List.length_dropLast]
      refine ⟨Or.inl hlen, ?_⟩
      rw [hlen, headD_dropLast_cons ⟨0, 0⟩ h2 body hb]
      exact ⟨fun hcon => absurd hcon (by omega), fun hcon => absurd hcon hne⟩

end SnakeLemmas

/-- C1 counterexample: an invincible snake whose wrapped head lands on its
own body segment is NOT rejected -- Snake.move succeeds, contradicting the
claim that the self- and obstacle-collision checks still apply while
invincible. -/
theorem C1_counterexample :
    (Snake.move ⟨30, 20⟩
        { body := [⟨10, 10⟩, ⟨11, 10⟩, ⟨11, 9⟩, ⟨10, 9⟩, ⟨9, 9⟩, ⟨9, 10⟩],
          direction := .left, nextDirection := .left, actualDirection := .left,
          invincible := true }
        ⟨0, 0⟩ []).2 = true ∧
    (Snake.move ⟨30, 20⟩
        { body := [⟨10, 10⟩, ⟨11, 10⟩, ⟨11, 9⟩, ⟨10, 9⟩, ⟨9, 9⟩, ⟨9, 10⟩],
          direction := .left, nextDirection := .left, actualDirection := .left,
          invincible := true }
        ⟨0, 0⟩ []).1.body.headD ⟨0, 0⟩ ∈
      [Cell.mk 10 10, ⟨11, 10⟩, ⟨11, 9⟩, ⟨10, 9⟩, ⟨9, 9⟩, ⟨9, 10⟩] := by
  decide

/-- C1 (amended): for every tick in which the snake is invincible,
Snake.move wraps the new head modulo the grid dimensions instead of
bounds-checking, and the self- and obstacle-collision checks are skipped
entirely: the move always succeeds, and the new head is the wrapped cell,
even when that cell lies on a body segment or an obstacle. -/
theorem C1_invincible_wraps_and_skips_checks (cfg : GridConfig) (s : SnakeS)
    (food : Cell) (obstacles : List Cell) (hb : s.body ≠ [])
    (hinv : s.invincible = true) :
    (Snake.move cfg s food obstacles).2 = true ∧
    (Snake.move cfg s food obstacles).1.body.headD ⟨0, 0⟩ =
      wrapCell cfg (stepCell (Snake.commitDirection s).direction (s.body.headD ⟨0, 0⟩)) := by
  have hinv1 : (Snake.commitDirection s).invincible = true := by
    rw [commitDirection_invincible]; exact hinv
  have hbody1 : (Snake.commitDirection s).body = s.body := commitDirection_body s
  simp only [Snake.move, hinv1, hbody1, Bool.true_eq_false, false_and, if_false,
    if_true, ite_true, ite_false, eq_self_iff_true]
  refine ⟨by trivial, ?_⟩
  split
  · rfl
  · exact headD_dropLast_cons _ _ _ hb

/-- C1 witness: the amended theorem applied to a concrete invincible snake
at the left wall, whose head wraps to column 29. -/
theorem C1_invincible_wraps_and_skips_checks_witness :
    (Snake.move ⟨30, 20⟩
        { body := [⟨0, 10⟩, ⟨1, 10⟩, ⟨2, 10⟩],
          direction := .left, nextDirection := .left, actualDirection := .left,
          invincible := true } ⟨5, 5⟩ []).2 = true ∧
    (Snake.move ⟨30, 20⟩
        { body := [⟨0, 10⟩, ⟨1, 10⟩, ⟨2, 10⟩],
          direction := .left, nextDirection := .left, actualDirection := .left,
          invincible := true } ⟨5, 5⟩ []).1.body.headD ⟨0, 0⟩ =
      wrapCell ⟨30, 20⟩ (stepCell (Snake.commitDirection
        { body := [⟨0, 10⟩, ⟨1, 10⟩, ⟨2, 10⟩],
          direction := .left, nextDirection := .left, actualDirection := .left,
          invincible := true }).direction
        (([Cell.mk 0 10, ⟨1, 10⟩, ⟨2, 10⟩] : List Cell).headD ⟨0, 0⟩)) :=
  C1_invincible_wraps_and_skips_checks ⟨30, 20⟩
    { body := [⟨0, 10⟩, ⟨1, 10⟩, ⟨2, 10⟩],
      direction := .left, nextDirection := .left, actualDirection := .left,
      invincible := true } ⟨5, 5⟩ [] (by decide) (by decide)

/-- C4: every successful Snake.move leaves the body length unchanged or
grown by exactly one, and it grows by one precisely when the new head cell
equals the pre-tick food cell. -/
theorem C4_length_invariant (cfg : GridConfig) (s : SnakeS) (food : Cell)
    (obstacles : List Cell) (s2 : SnakeS) (hb : s.body ≠ [])
    (hm : Snake.move cfg s food obstacles = (s2, true)) :
    (s2.body.length = s.body.length ∨ s2.body.length = s.body.length + 1) ∧
    (s2.body.length = s.body.length + 1 ↔ s2.body.headD ⟨0, 0⟩ = food) := by
  rcases move_result cfg s food obstacles with hfail | ⟨h2, heq⟩
  · rw [hm] at hfail
    simp at hfail
  · rw [hm] at heq
    have hs2 := congrArg Prod.fst heq
    simp only at hs2
    rw [commitDirection_body] at hs2
    rw [hs2]
    exact body_update_facts h2 food s.body hb

/-- C4 witness: the freshly reset snake eating food at (16, 10) grows from
length 3 to length 4, and the growth happens exactly because the new head
is the food cell. -/
theorem C4_length_invariant_witness :
    ((Snake.reset ⟨30, 20⟩).body ≠ [] ∧
      Snake.move ⟨30, 20⟩ (Snake.reset ⟨30, 20⟩) ⟨16, 10⟩ [] =
        ({ body := [⟨16, 10⟩, ⟨15, 10⟩, ⟨14, 10⟩, ⟨13, 10⟩],
           direction := .right, nextDirection := .right, actualDirection := .right,
           invincible := false }, true)) ∧
    ((({ body := [⟨16, 10⟩, ⟨15, 10⟩, ⟨14, 10⟩, ⟨13, 10⟩],
         direction := .right, nextDirection := .right, actualDirection := .right,
         invincible := false } : SnakeS).body.length =
        (Snake.reset ⟨30, 20⟩).body.length ∨
      ({ body := [⟨16, 10⟩, ⟨15, 10⟩, ⟨14, 10⟩, ⟨13, 10⟩],
         direction := .right, nextDirection := .right, actualDirection := .right,
         invincible := false } : SnakeS).body.length =
        (Snake.reset ⟨30, 20⟩).body.length + 1) ∧
     (({ body := [⟨16, 10⟩, ⟨15, 10⟩, ⟨14, 10⟩, ⟨13, 10⟩],
         direction := .right, nextDirection := .right, actualDirection := .right,
         invincible := false } : SnakeS).body.length =
        (Snake.reset ⟨30, 20⟩).body.length + 1 ↔
      ({ body := [⟨16, 10⟩, ⟨15, 10⟩, ⟨14, 10⟩, ⟨13, 10⟩],
         direction := .right, nextDirection := .right, actualDirection := .right,
         invincible := false } : SnakeS).body.headD ⟨0, 0⟩ = ⟨16, 10⟩)) :=
  ⟨⟨by decide, by decide⟩,
    C4_length_invariant ⟨30, 20⟩ (Snake.reset ⟨30, 20⟩) ⟨16, 10⟩ [] _
      (by decide) (by decide)⟩

/-- C5: along every sequence of setDirection calls and ticks from a reset
snake, the direction actually applied by the next Snake.move is never the
opposite of the actualDirection recorded before that tick. -/
theorem C5_anti_reversal (cfg cfg0 : GridConfig) (ops : List SnakeOp)
    (food : Cell) (obstacles : List Cell) :
    (Snake.move cfg (Snake.runOps cfg (Snake.reset cfg0) ops) food obstacles).1.direction ≠
      Direction.opposite (Snake.runOps cfg (Snake.reset cfg0) ops).actualDirection := by
  set s := Snake.runOps cfg (Snake.reset cfg0) ops with hsdef
  have hdir : s.direction = s.actualDirection := by
    rw [hsdef]
    exact runOps_dirEq cfg ops (Snake.reset cfg0) rfl
  rw [move_fst_direction]
  unfold Snake.commitDirection
  split
  · next h => exact h
  · rw [hdir]
    exact fun hcon => opposite_ne s.actualDirection hcon.symm

/-- C5 witness: requesting LEFT while moving RIGHT is ignored and the
applied direction on the next tick is not LEFT. -/
theorem C5_anti_reversal_witness :
    (Snake.move ⟨30, 20⟩
        (Snake.runOps ⟨30, 20⟩ (Snake.reset ⟨30, 20⟩) [SnakeOp.setDir .left])
        ⟨0, 0⟩ []).1.direction ≠
      Direction.opposite
        (Snake.runOps ⟨30, 20⟩ (Snake.reset ⟨30, 20⟩)
          [SnakeOp.setDir .left]).actualDirection :=
  C5_anti_reversal ⟨30, 20⟩ ⟨30, 20⟩ [SnakeOp.setDir .left] ⟨0, 0⟩ []

section EntryLemmas

variable {α β : Type} [DecidableEq α]

lemma lookupEntry_nil (k : α) : lookupEntry ([] : List (α × β)) k = none := rfl

lemma lookupEntry_cons (e : α × β) (l : List (α × β)) (k : α) :
    lookupEntry (e :: l) k = if e.1 = k then some e.2 else lookupEntry l k := by
  by_cases h : e.1 = k
  · simp [lookupEntry, List.find?_cons_of_pos, h]
  · simp [lookupEntry, List.find?_cons_of_neg, h]

lemma lookupEntry_setEntry (m : List (α × β)) (k : α) (v : β) :
    lookupEntry (setEntry m k v) k = some v := by
  induction m with
  | nil => simp [setEntry, lookupEntry_cons, lookupEntry_nil]
  | cons e rest ih =>
      by_cases h : e.1 = k
      · simp [setEntry, h, lookupEntry_cons]
      · simp [setEntry, h, lookupEntry_cons, ih]

lemma setEntry_idem (m : List (α × β)) (k : α) (v : β) :
    setEntry (setEntry m k v) k v = setEntry m k v := by
  induction m with
  | nil => simp [setEntry]
  | cons e rest ih =>
      by_cases h : e.1 = k
      · simp [setEntry, h]
      · simp [setEntry, h, ih]

lemma removeEntry_setEntry (m : List (α × β)) (k : α) (v : β) :
    removeEntry (setEntry m k v) k = removeEntry m k := by
  induction m with
  | nil => simp [setEntry, removeEntry]
  | cons e rest ih =>
      by_cases h : e.1 = k
      · simp [setEntry, h, removeEntry]
      · simp [setEntry, h, removeEntry, ih]

lemma removeEntry_of_lookup_none (m : List (α × β)) (k : α)
    (h : lookupEntry m k = none) : removeEntry m k = m := by
  induction m with
  | nil => rfl
  | cons e rest ih =>
      rw [lookupEntry_cons] at h
      by_cases he : e.1 = k
      · rw [if_pos he] at h; cases h
      · rw [if_neg he] at h
        simp [removeEntry, he, ih h]

end EntryLemmas

/-- A concrete in-play game state with the freshly reset configuration
values of js/config/constants.js (GAME_SPEED = BASE_GAME_SPEED = 8,
POWERUP_DURATION = 800, POWERUP_SPAWN_INTERVAL = 700, POWERUP_COUNT = 3),
no active effects and an empty field. -/
def baseGame : GameS :=
  { state := .play, GAME_SPEED := 8, BASE_GAME_SPEED := 8, POWERUP_DURATION := 800,
    POWERUP_SPAWN_INTERVAL := 700, POWERUP_COUNT := 3, scoreMultiplier := 1, score := 0,
    snakeInvincible := false, snakeShrinkActive := false, magnetActive := false,
    snakeBody := [⟨15, 10⟩, ⟨14, 10⟩, ⟨13, 10⟩], foodPos := ⟨5, 5⟩, obstacles := [],
    powerUps := [], activePowerUps := [], spawnTimer := 0 }

/-- C2 counterexample: collecting SpeedBoost a second time while its effect
is active DOES apply the +3 magnitude change again -- GAME_SPEED goes
8 to 11 on the first apply and 11 to 14 on the second, contradicting the
claim that the magnitude is not double-applied. -/
theorem C2_counterexample :
    (PowerUp.apply .speed_boost baseGame).GAME_SPEED = 11 ∧
    lookupEntry (PowerUp.apply .speed_boost baseGame).activePowerUps .speed_boost =
      some 800 ∧
    (PowerUp.apply .speed_boost (PowerUp.apply .speed_boost baseGame)).GAME_SPEED = 14 := by
  refine ⟨?_, ?_, ?_⟩
  · simp [PowerUp.apply, baseGame]; norm_num
  · simp [PowerUp.apply, baseGame, setEntry, lookupEntry_cons]
  · simp [PowerUp.apply, baseGame]; norm_num

/-- C2 (amended): re-collecting a kind whose effect is active refreshes its
active-effects entry to exactly POWERUP_DURATION (durations never stack),
and for Invincibility, ScoreMultiplier, Magnet and Shrink the second apply
is fully idempotent (in particular scoreMultiplier stays 2, never 4); but
the second collection of SpeedBoost adds 3 to gameSpeed again, and the
second collection of TimeSlow multiplies gameSpeed by 0.25 again -- the
magnitude change of the two speed-modifying kinds IS double-applied. -/
theorem C2_reapply_behavior (g : GameS) (t : PowerUpType) :
    lookupEntry (PowerUp.apply t (PowerUp.apply t g)).activePowerUps t =
      some g.POWERUP_DURATION ∧
    PowerUp.apply .invincibility (PowerUp.apply .invincibility g) =
      PowerUp.apply .invincibility g ∧
    PowerUp.apply .score_multiplier (PowerUp.apply .score_multiplier g) =
      PowerUp.apply .score_multiplier g ∧
    (PowerUp.apply .score_multiplier (PowerUp.apply .score_multiplier g)).scoreMultiplier = 2 ∧
    PowerUp.apply .magnet (PowerUp.apply .magnet g) = PowerUp.apply .magnet g ∧
    PowerUp.apply .shrink (PowerUp.apply .shrink g) = PowerUp.apply .shrink g ∧
    (PowerUp.apply .speed_boost (PowerUp.apply .speed_boost g)).GAME_SPEED =
      g.GAME_SPEED + 3 + 3 ∧
    (PowerUp.apply .time_slow (PowerUp.apply .time_slow g)).GAME_SPEED =
      g.GAME_SPEED * (1 / 4) * (1 / 4) := by
  refine ⟨?_, ?_, ?_, ?_, ?_, ?_, ?_, ?_⟩
  · cases t <;> simp [PowerUp.apply, lookupEntry_setEntry]
  · simp [PowerUp.apply, setEntry_idem]
  · simp [PowerUp.apply, setEntry_idem]
  · simp [PowerUp.apply]
  · simp [PowerUp.apply, setEntry_idem]
  · simp [PowerUp.apply, setEntry_idem]
  · simp [PowerUp.apply]
  · simp [PowerUp.apply]

/-- C3 counterexample: after collecting SpeedBoost twice and letting it
expire, the game reaches a state with NO active effects and GAME_SPEED =
11; from that state, applying TimeSlow and immediately reversing it leaves
GAME_SPEED = 8 = BASE_GAME_SPEED, not the pre-apply value 11 -- the
apply/reverse round trip does not restore the mutated field. -/
theorem C3_counterexample :
    (PowerUp.expire .speed_boost (PowerUp.apply .speed_boost
        (PowerUp.apply .speed_boost baseGame))).activePowerUps = [] ∧
    (PowerUp.expire .speed_boost (PowerUp.apply .speed_boost
        (PowerUp.apply .speed_boost baseGame))).GAME_SPEED = 11 ∧
    (PowerUp.expire .time_slow (PowerUp.apply .time_slow
        (PowerUp.expire .speed_boost (PowerUp.apply .speed_boost
          (PowerUp.apply .speed_boost baseGame))))).GAME_SPEED = 8 := by
  refine ⟨?_, ?_, ?_⟩
  · simp [PowerUp.expire, PowerUp.apply, baseGame, setEntry, removeEntry]
  · simp [PowerUp.expire, PowerUp.apply, baseGame, setEntry, removeEntry]; norm_num
  · simp [PowerUp.expire, PowerUp.apply, baseGame, setEntry, removeEntry]

/-- C3 (amended): apply followed immediately by expire restores every
mutated field to its pre-apply value provided the pre-apply state carries
the baseline no-effect values of the mutated fields -- in particular
GAME_SPEED = BASE_GAME_SPEED; when the pre-apply speed differs from the
base speed, the TimeSlow reversal (and, below base, the SpeedBoost
reversal) restores BASE_GAME_SPEED instead of the pre-apply value. -/
theorem C3_roundtrip_baseline (t : PowerUpType) (g : GameS)
    (hspeed : g.GAME_SPEED = g.BASE_GAME_SPEED)
    (hinv : g.snakeInvincible = false)
    (hsm : g.scoreMultiplier = 1)
    (hmag : g.magnetActive = false)
    (hshr : g.snakeShrinkActive = false)
    (hap : lookupEntry g.activePowerUps t = none) :
    PowerUp.expire t (PowerUp.apply t g) = g := by
  obtain ⟨st, gs, bgs, pd, psi, pc, sm, sc, si, ss, ma, sb, fp, ob, pu, ap, spt⟩ := g
  simp only at hspeed hinv hsm hmag hshr hap
  subst hspeed hinv hsm hmag hshr
  cases t <;>
    simp [PowerUp.apply, PowerUp.expire, removeEntry_setEntry,
      removeEntry_of_lookup_none _ _ hap]

/-- C3 witness: the round-trip theorem applied to the concrete base state
and TimeSlow: all baseline hypotheses hold there and the round trip is the
identity. -/
theorem C3_roundtrip_baseline_witness :
    baseGame.GAME_SPEED = baseGame.BASE_GAME_SPEED ∧
    baseGame.snakeInvincible = false ∧
    baseGame.scoreMultiplier = 1 ∧
    baseGame.magnetActive = false ∧
    baseGame.snakeShrinkActive = false ∧
    lookupEntry baseGame.activePowerUps .time_slow = none ∧
    PowerUp.expire .time_slow (PowerUp.apply .time_slow baseGame) = baseGame :=
  ⟨rfl, rfl, rfl, rfl, rfl, rfl,
    C3_roundtrip_baseline .time_slow baseGame rfl rfl rfl rfl rfl rfl⟩

section ComboLemmas

lemma comboUpdate_eq_of_timer_zero (cd : Nat) (c : ComboSystemS)
    (h : c.comboTimer = 0) : ComboSystem.update cd c = c := by
  simp [ComboSystem.update, h]

lemma comboUpdate_eq_of_timer_one (cd : Nat) (c : ComboSystemS)
    (h : c.comboTimer = 1) : ComboSystem.update cd c = ComboSystem.reset cd := by
  simp [ComboSystem.update, h]

lemma comboUpdate_eq_of_timer_gt (cd : Nat) (c : ComboSystemS)
    (h : 1 < c.comboTimer) :
    ComboSystem.update cd c = { c with comboTimer := c.comboTimer - 1 } := by
  have h0 : 0 < c.comboTimer := by omega
  have h1 : ¬ c.comboTimer - 1 = 0 := by omega
  simp [ComboSystem.update, h0, h1]

end ComboLemmas

/-- C6: the amount handleFoodCollection adds to the score equals the spec
formula round (obstacleBonusFactor * scoreMultiplier * comboMultiplier),
with the obstacle factor 1 + OBSTACLE_BONUS exactly when obstacle mode is
on and the combo multiplier 1 + floor (comboCount / 3) * 0.5 computed from
the post-increment combo count; the increment itself adds exactly one to
the combo count. -/
theorem C6_food_score_formula (obstaclesEnabled : Bool)
    (OBSTACLE_BONUS scoreMultiplier : ℚ) (c : ComboSystemS) :
    (Game.handleFoodCollection obstaclesEnabled OBSTACLE_BONUS scoreMultiplier c).2 =
      specFoodScoreDelta obstaclesEnabled OBSTACLE_BONUS scoreMultiplier c.comboCount ∧
    (Game.handleFoodCollection obstaclesEnabled OBSTACLE_BONUS scoreMultiplier
        c).1.comboCount = c.comboCount + 1 := by
  constructor <;>
    simp [Game.handleFoodCollection, specFoodScoreDelta, ComboSystem.incrementCombo,
      ComboSystem.getComboMultiplier]

/-- C7: comboCount never increases under the per-tick update -- it is
preserved, or reset to exactly 0 precisely when the decremented timer
reaches 0 (equivalently, the pre-update timer is 1) without an intervening
increment; a positive timer is decremented by one each update, a zero
timer leaves the state untouched; and incrementCombo is the only operation
that increases the count, adding exactly one while refilling the timer to
the decay window maxComboTimer (set to COMBO_DECAY_TIME by reset and
preserved by incrementCombo). -/
theorem C7_combo_monotonicity (cd : Nat) (c : ComboSystemS) :
    ((ComboSystem.update cd c).comboCount = c.comboCount ∨
      (ComboSystem.update cd c).comboCount = 0) ∧
    ((ComboSystem.update cd c).comboCount = 0 ↔
      c.comboTimer = 1 ∨ c.comboCount = 0) ∧
    (0 < c.comboTimer → (ComboSystem.update cd c).comboTimer = c.comboTimer - 1) ∧
    (c.comboTimer = 0 → ComboSystem.update cd c = c) ∧
    (ComboSystem.incrementCombo c).1.comboCount = c.comboCount + 1 ∧
    (ComboSystem.incrementCombo c).1.comboTimer = c.maxComboTimer ∧
    (ComboSystem.reset cd).maxComboTimer = cd ∧
    (ComboSystem.incrementCombo c).1.maxComboTimer = c.maxComboTimer := by
  have hcases : c.comboTimer = 0 ∨ c.comboTimer = 1 ∨ 1 < c.comboTimer := by omega
  rcases hcases with h | h | h
  · rw [comboUpdate_eq_of_timer_zero cd c h]
    refine ⟨Or.inl rfl, ?_, ?_, fun _ => rfl, rfl, rfl, rfl, rfl⟩
    · rw [h]; simp
    · intro h0; omega
  · rw [comboUpdate_eq_of_timer_one cd c h]
    refine ⟨Or.inr rfl, ?_, ?_, ?_, rfl, rfl, rfl, rfl⟩
    · simp [ComboSystem.reset, h]
    · intro _; simp [ComboSystem.reset, h]
    · intro h0; omega
  · rw [comboUpdate_eq_of_timer_gt cd c h]
    refine ⟨Or.inl rfl, ?_, fun _ => rfl, ?_, rfl, rfl, rfl, rfl⟩
    · constructor
      · intro h0; exact Or.inr h0
      · rintro (h1 | h2)
        · omega
        · exact h2
    · intro h0; omega

/-- C7 witness: the dynamics theorem at the concrete state comboCount 5,
comboTimer 1, decay window 180 -- the next update loses the combo. -/
theorem C7_combo_monotonicity_witness :
    ((ComboSystem.update 180 ⟨5, 1, 180⟩).comboCount = (⟨5, 1, 180⟩ : ComboSystemS).comboCount ∨
      (ComboSystem.update 180 ⟨5, 1, 180⟩).comboCount = 0) ∧
    ((ComboSystem.update 180 ⟨5, 1, 180⟩).comboCount = 0 ↔
      (⟨5, 1, 180⟩ : ComboSystemS).comboTimer = 1 ∨
        (⟨5, 1, 180⟩ : ComboSystemS).comboCount = 0) ∧
    (0 < (⟨5, 1, 180⟩ : ComboSystemS).comboTimer →
      (ComboSystem.update 180 ⟨5, 1, 180⟩).comboTimer =
        (⟨5, 1, 180⟩ : ComboSystemS).comboTimer - 1) ∧
    ((⟨5, 1, 180⟩ : ComboSystemS).comboTimer = 0 →
      ComboSystem.update 180 ⟨5, 1, 180⟩ = ⟨5, 1, 180⟩) ∧
    (ComboSystem.incrementCombo ⟨5, 1, 180⟩).1.comboCount =
      (⟨5, 1, 180⟩ : ComboSystemS).comboCount + 1 ∧
    (ComboSystem.incrementCombo ⟨5, 1, 180⟩).1.comboTimer =
      (⟨5, 1, 180⟩ : ComboSystemS).maxComboTimer ∧
    (ComboSystem.reset 180).maxComboTimer = 180 ∧
    (ComboSystem.incrementCombo ⟨5, 1, 180⟩).1.maxComboTimer =
      (⟨5, 1, 180⟩ : ComboSystemS).maxComboTimer :=
  C7_combo_monotonicity 180 ⟨5, 1, 180⟩

section ManagerLemmas

lemma apply_powerUps (t : PowerUpType) (g : GameS) :
    (PowerUp.apply t g).powerUps = g.powerUps := by
  cases t <;> rfl

lemma apply_spawnTimer (t : PowerUpType) (g : GameS) :
    (PowerUp.apply t g).spawnTimer = g.spawnTimer := by
  cases t <;> rfl

lemma expire_powerUps (t : PowerUpType) (g : GameS) :
    (PowerUp.expire t g).powerUps = g.powerUps := by
  cases t <;> rfl

lemma expire_spawnTimer (t : PowerUpType) (g : GameS) :
    (PowerUp.expire t g).spawnTimer = g.spawnTimer := by
  cases t <;> rfl

lemma decExpireOne_powerUps (g : GameS) (t : PowerUpType) :
    (PowerUpManager.decExpireOne g t).powerUps = g.powerUps := by
  unfold PowerUpManager.decExpireOne
  rcases hl : lookupEntry g.activePowerUps t with _ | v
  · rfl
  · simp only
    split
    · rw [expire_powerUps]
    · rfl

lemma decExpireOne_spawnTimer (g : GameS) (t : PowerUpType) :
    (PowerUpManager.decExpireOne g t).spawnTimer = g.spawnTimer := by
  unfold PowerUpManager.decExpireOne
  rcases hl : lookupEntry g.activePowerUps t with _ | v
  · rfl
  · simp only
    split
    · rw [expire_spawnTimer]
    · rfl

lemma foldl_decExpire_powerUps (keys : List PowerUpType) :
    ∀ g : GameS, (keys.foldl PowerUpManager.decExpireOne g).powerUps = g.powerUps := by
  induction keys with
  | nil => intro g; rfl
  | cons t rest ih =>
      intro g
      simp only [List.foldl_cons]
      rw [ih (PowerUpManager.decExpireOne g t), decExpireOne_powerUps]

lemma foldl_decExpire_spawnTimer (keys : List PowerUpType) :
    ∀ g : GameS, (keys.foldl PowerUpManager.decExpireOne g).spawnTimer = g.spawnTimer := by
  induction keys with
  | nil => intro g; rfl
  | cons t rest ih =>
      intro g
      simp only [List.foldl_cons]
      rw [ih (PowerUpManager.decExpireOne g t), decExpireOne_spawnTimer]

lemma activePhase_powerUps (g : GameS) :
    (PowerUpManager.activePhase g).powerUps = g.powerUps :=
  foldl_decExpire_powerUps _ g

lemma activePhase_spawnTimer (g : GameS) :
    (PowerUpManager.activePhase g).spawnTimer = g.spawnTimer :=
  foldl_decExpire_spawnTimer _ g

lemma collectStep_len (head : Cell) (p : GameS × List (Cell × PowerUpType))
    (pu : Cell × PowerUpType) :
    (collectStep head p pu).2.length ≤ p.2.length + 1 := by
  unfold collectStep
  split
  · simp only; omega
  · simp

lemma collectStep_spawnTimer (head : Cell) (p : GameS × List (Cell × PowerUpType))
    (pu : Cell × PowerUpType) :
    (collectStep head p pu).1.spawnTimer = p.1.spawnTimer := by
  unfold collectStep
  split
  · simp only [apply_spawnTimer]
  · rfl

lemma collectFold_len (head : Cell) (l : List (Cell × PowerUpType)) :
    ∀ p : GameS × List (Cell × PowerUpType),
      ((l.foldl (collectStep head) p).2).length ≤ p.2.length + l.length := by
  induction l with
  | nil => intro p; simp
  | cons pu rest ih =>
      intro p
      simp only [List.foldl_cons, List.length_cons]
      have h1 := ih (collectStep head p pu)
      have h2 := collectStep_len head p pu
      omega

lemma collectFold_spawnTimer (head : Cell) (l : List (Cell × PowerUpType)) :
    ∀ p : GameS × List (Cell × PowerUpType),
      ((l.foldl (collectStep head) p).1).spawnTimer = p.1.spawnTimer := by
  induction l with
  | nil => intro p; rfl
  | cons pu rest ih =>
      intro p
      simp only [List.foldl_cons]
      rw [ih (collectStep head p pu), collectStep_spawnTimer]

lemma collectPhase_len (g : GameS) :
    (PowerUpManager.collectPhase g).powerUps.length ≤ g.powerUps.length := by
  unfold PowerUpManager.collectPhase
  simpa using collectFold_len (g.snakeBody.headD ⟨0, 0⟩) g.powerUps (g, [])

lemma collectPhase_spawnTimer (g : GameS) :
    (PowerUpManager.collectPhase g).spawnTimer = g.spawnTimer := by
  unfold PowerUpManager.collectPhase
  simpa using collectFold_spawnTimer (g.snakeBody.headD ⟨0, 0⟩) g.powerUps (g, [])

lemma getRandomPosition_spawnTimer (g : GameS) (n : Nat) (b : Bool)
    (stream : Nat → Cell) :
    Game.getRandomPosition { g with spawnTimer := n } b stream =
      Game.getRandomPosition g b stream := rfl

lemma spawnPhase_spawn (g : GameS) (stream : Nat → Cell) (kind : PowerUpType)
    (h1 : g.spawnTimer + 1 ≥ g.POWERUP_SPAWN_INTERVAL)
    (h2 : g.powerUps.length < g.POWERUP_COUNT) :
    PowerUpManager.spawnPhase g stream kind =
      { g with spawnTimer := 0,
               powerUps := g.powerUps ++
                 [(Game.getRandomPosition g true stream, kind)] } := by
  unfold PowerUpManager.spawnPhase PowerUpManager.spawnPowerUp
  rw [if_pos (show ({ g with spawnTimer := g.spawnTimer + 1 } : GameS).spawnTimer ≥
    ({ g with spawnTimer := g.spawnTimer + 1 } : GameS).POWERUP_SPAWN_INTERVAL from h1)]
  rw [if_pos (show ({ g with spawnTimer := g.spawnTimer + 1 } : GameS).powerUps.length <
    ({ g with spawnTimer := g.spawnTimer + 1 } : GameS).POWERUP_COUNT from h2)]
  rfl

lemma spawnPhase_skip (g : GameS) (stream : Nat → Cell) (kind : PowerUpType)
    (h1 : g.spawnTimer + 1 ≥ g.POWERUP_SPAWN_INTERVAL)
    (h2 : ¬ g.powerUps.length < g.POWERUP_COUNT) :
    PowerUpManager.spawnPhase g stream kind = { g with spawnTimer := 0 } := by
  unfold PowerUpManager.spawnPhase
  rw [if_pos (show ({ g with spawnTimer := g.spawnTimer + 1 } : GameS).spawnTimer ≥
    ({ g with spawnTimer := g.spawnTimer + 1 } : GameS).POWERUP_SPAWN_INTERVAL from h1)]
  rw [if_neg (show ¬ ({ g with spawnTimer := g.spawnTimer + 1 } : GameS).powerUps.length <
    ({ g with spawnTimer := g.spawnTimer + 1 } : GameS).POWERUP_COUNT from h2)]

lemma spawnPhase_tick (g : GameS) (stream : Nat → Cell) (kind : PowerUpType)
    (h1 : ¬ g.spawnTimer + 1 ≥ g.POWERUP_SPAWN_INTERVAL) :
    PowerUpManager.spawnPhase g stream kind =
      { g with spawnTimer := g.spawnTimer + 1 } := by
  unfold PowerUpManager.spawnPhase
  rw [if_neg (show ¬ ({ g with spawnTimer := g.spawnTimer + 1 } : GameS).spawnTimer ≥
    ({ g with spawnTimer := g.spawnTimer + 1 } : GameS).POWERUP_SPAWN_INTERVAL from h1)]

lemma spawnPhase_len (g : GameS) (stream : Nat → Cell) (kind : PowerUpType)
    (hcap : g.powerUps.length ≤ g.POWERUP_COUNT) :
    (PowerUpManager.spawnPhase g stream kind).powerUps.length ≤ g.POWERUP_COUNT := by
  by_cases h1 : g.spawnTimer + 1 ≥ g.POWERUP_SPAWN_INTERVAL
  · by_cases h2 : g.powerUps.length < g.POWERUP_COUNT
    · rw [spawnPhase_spawn g stream kind h1 h2]
      simp only [List.length_append, List.length_cons, List.length_nil]
      omega
    · rw [spawnPhase_skip g stream kind h1 h2]
      exact hcap
  · rw [spawnPhase_tick g stream kind h1]
    exact hcap

lemma update_of_play (g : GameS) (stream : Nat → Cell) (kind : PowerUpType)
    (hstate : g.state = GameState.play) :
    PowerUpManager.update g stream kind =
      PowerUpManager.collectPhase
        (PowerUpManager.activePhase (PowerUpManager.spawnPhase g stream kind)) := by
  unfold PowerUpManager.update
  rw [if_neg (by simp [hstate])]

lemma update_of_not_play (g : GameS) (stream : Nat → Cell) (kind : PowerUpType)
    (hstate : g.state ≠ GameState.play) :
    PowerUpManager.update g stream kind = g := by
  unfold PowerUpManager.update
  rw [if_pos hstate]

lemma randomCellLoop_cases (ok : Cell → Bool) (stream : Nat → Cell) :
    ∀ (fuel i : Nat),
      (∃ j, i ≤ j ∧ j < i + fuel ∧ ok (stream j) = true ∧
        randomCellLoop ok stream fuel i = stream j ∧
        ∀ j', i ≤ j' → j' < j → ok (stream j') = false) ∨
      ((∀ j, i ≤ j → j < i + fuel → ok (stream j) = false) ∧
        randomCellLoop ok stream fuel i = ⟨0, 0⟩) := by
  intro fuel
  induction fuel with
  | zero =>
      intro i
      exact Or.inr ⟨fun j h1 h2 => absurd h2 (by omega), rfl⟩
  | succ n ih =>
      intro i
      by_cases h : ok (stream i) = true
      · refine Or.inl ⟨i, le_refl i, by omega, h, ?_, ?_⟩
        · simp [randomCellLoop, h]
        · intro j' hle hlt; omega
      · have hf : ok (stream i) = false := by
          cases hv : ok (stream i)
          · rfl
          · exact absurd hv h
        rcases ih (i + 1) with ⟨j, hj1, hj2, hj3, hj4, hj5⟩ | ⟨hall, heq⟩
        · refine Or.inl ⟨j, by omega, by omega, hj3, ?_, ?_⟩
          · rw [show randomCellLoop ok stream (n + 1) i =
              randomCellLoop ok stream n (i + 1) from by simp [randomCellLoop, hf]]
            exact hj4
          · intro j' hle hlt
            rcases Nat.eq_or_lt_of_le hle with he | hgt
            · exact he ▸ hf
            · exact hj5 j' (by omega) hlt
        · refine Or.inr ⟨?_, ?_⟩
          · intro j hle hlt
            rcases Nat.eq_or_lt_of_le hle with he | hgt
            · exact he ▸ hf
            · exact hall j (by omega) (by omega)
          · rw [show randomCellLoop ok stream (n + 1) i =
              randomCellLoop ok stream n (i + 1) from by simp [randomCellLoop, hf]]
            exact heq

lemma randomCellLoop_found (ok : Cell → Bool) (stream : Nat → Cell)
    (h : ∃ j, j < 100 ∧ ok (stream j) = true) :
    ok (randomCellLoop ok stream 100 0) = true := by
  rcases randomCellLoop_cases ok stream 100 0 with ⟨j, _, _, hj3, hj4, _⟩ | ⟨hall, _⟩
  · rw [hj4]; exact hj3
  · rcases h with ⟨j, hj, hok⟩
    rw [hall j (Nat.zero_le j) (by omega)] at hok
    cases hok

end ManagerLemmas

/-- C8: in play, a PowerUpManager.update never pushes the number of
uncollected pickups above POWERUP_COUNT -- a pickup is created only when
the incremented spawn timer has reached POWERUP_SPAWN_INTERVAL and fewer
than POWERUP_COUNT pickups are present, the timer then being reset to 0;
when a pickup is created, it is appended at the cell found by
Game.getRandomPosition, which avoids snake, obstacles, food, and other
pickups whenever any of the 100 samples is collision-free. -/
theorem C8_pickup_cap (g : GameS) (stream : Nat → Cell) (kind : PowerUpType)
    (hcap : g.powerUps.length ≤ g.POWERUP_COUNT) :
    (PowerUpManager.update g stream kind).powerUps.length ≤ g.POWERUP_COUNT ∧
    (g.spawnTimer + 1 ≥ g.POWERUP_SPAWN_INTERVAL →
      g.powerUps.length < g.POWERUP_COUNT →
      PowerUpManager.spawnPhase g stream kind =
        { g with spawnTimer := 0,
                 powerUps := g.powerUps ++
                   [(Game.getRandomPosition g true stream, kind)] }) ∧
    (¬ g.powerUps.length < g.POWERUP_COUNT →
      (PowerUpManager.spawnPhase g stream kind).powerUps = g.powerUps) ∧
    (g.spawnTimer + 1 < g.POWERUP_SPAWN_INTERVAL →
      (PowerUpManager.spawnPhase g stream kind).powerUps = g.powerUps) ∧
    ((∃ j, j < 100 ∧ Game.cellFree g true (stream j) = true) →
      Game.cellFree g true (Game.getRandomPosition g true stream) = true) := by
  refine ⟨?_, ?_, ?_, ?_, ?_⟩
  · by_cases hstate : g.state = GameState.play
    · rw [update_of_play g stream kind hstate]
      have h1 := spawnPhase_len g stream kind hcap
      have h2 := congrArg List.length
        (activePhase_powerUps (PowerUpManager.spawnPhase g stream kind))
      have h3 := collectPhase_len
        (PowerUpManager.activePhase (PowerUpManager.spawnPhase g stream kind))
      omega
    · rw [update_of_not_play g stream kind hstate]
      exact hcap
  · exact spawnPhase_spawn g stream kind
  · intro h2
    by_cases h1 : g.spawnTimer + 1 ≥ g.POWERUP_SPAWN_INTERVAL
    · rw [spawnPhase_skip g stream kind h1 h2]
    · rw [spawnPhase_tick g stream kind h1]
  · intro h1
    rw [spawnPhase_tick g stream kind (by omega)]
  · exact randomCellLoop_found _ stream

/-- C8 witness: updating the base state (empty field, timer far from the
interval) keeps the pickup count within POWERUP_COUNT, and the sample
stream constantly at the free cell (7, 7) yields a collision-free spawn
cell. -/
theorem C8_pickup_cap_witness :
    baseGame.powerUps.length ≤ baseGame.POWERUP_COUNT ∧
    (PowerUpManager.update baseGame (fun _ => ⟨7, 7⟩) .magnet).powerUps.length ≤
      baseGame.POWERUP_COUNT ∧
    Game.cellFree baseGame true
      (Game.getRandomPosition baseGame true (fun _ => ⟨7, 7⟩)) = true :=
  ⟨by decide,
    (C8_pickup_cap baseGame (fun _ => ⟨7, 7⟩) .magnet (by decide)).1,
    (C8_pickup_cap baseGame (fun _ => ⟨7, 7⟩) .magnet (by decide)).2.2.2.2
      ⟨0, by omega, by decide⟩⟩

/-- C10: when an in-play update finds the incremented spawn timer at
POWERUP_SPAWN_INTERVAL but the field already holds POWERUP_COUNT pickups,
no pickup is spawned yet the timer is still reset to 0; and from any
in-play state whose incremented timer is below the interval, an update
merely increments the timer and spawns nothing -- so after a skipped spawn
a further full POWERUP_SPAWN_INTERVAL ticks must elapse before the next
spawn opportunity. -/
theorem C10_timer_reset_on_skip (g : GameS) (stream : Nat → Cell)
    (kind : PowerUpType) (hstate : g.state = GameState.play)
    (ht : g.spawnTimer + 1 ≥ g.POWERUP_SPAWN_INTERVAL)
    (hfull : ¬ g.powerUps.length < g.POWERUP_COUNT) :
    (PowerUpManager.update g stream kind).spawnTimer = 0 ∧
    (PowerUpManager.spawnPhase g stream kind).powerUps = g.powerUps ∧
    (∀ h : GameS, h.state = GameState.play →
      h.spawnTimer + 1 < h.POWERUP_SPAWN_INTERVAL →
      (PowerUpManager.update h stream kind).spawnTimer = h.spawnTimer + 1 ∧
      (PowerUpManager.spawnPhase h stream kind).powerUps = h.powerUps) := by
  refine ⟨?_, ?_, ?_⟩
  · rw [update_of_play g stream kind hstate, collectPhase_spawnTimer,
      activePhase_spawnTimer, spawnPhase_skip g stream kind ht hfull]
  · rw [spawnPhase_skip g stream kind ht hfull]
  · intro h hst hlt
    constructor
    · rw [update_of_play h stream kind hst, collectPhase_spawnTimer,
        activePhase_spawnTimer, spawnPhase_tick h stream kind (by omega)]
    · rw [spawnPhase_tick h stream kind (by omega)]

/-- A concrete in-play state one tick from the 700-frame spawn interval
with the field already holding POWERUP_COUNT = 3 uncollected pickups. -/
def fullFieldGame : GameS :=
  { baseGame with
    spawnTimer := 699,
    powerUps := [(⟨1, 1⟩, PowerUpType.magnet), (⟨2, 2⟩, PowerUpType.shrink),
      (⟨3, 3⟩, PowerUpType.speed_boost)] }

/-- C10 witness: with three pickups already on the field and the timer one
tick from the 700-frame interval, the update spawns nothing and resets the
timer to 0. -/
theorem C10_timer_reset_on_skip_witness :
    fullFieldGame.state = GameState.play ∧
    (PowerUpManager.update fullFieldGame (fun _ => ⟨7, 7⟩) .magnet).spawnTimer = 0 ∧
    (PowerUpManager.spawnPhase fullFieldGame (fun _ => ⟨7, 7⟩) .magnet).powerUps =
      fullFieldGame.powerUps :=
  ⟨by decide,
    (C10_timer_reset_on_skip fullFieldGame (fun _ => ⟨7, 7⟩) .magnet
      (by decide) (by decide) (by decide)).1,
    (C10_timer_reset_on_skip fullFieldGame (fun _ => ⟨7, 7⟩) .magnet
      (by decide) (by decide) (by decide)).2.1⟩

section SamplingLemmas

lemma randomCellLoop_100_cases (ok : Cell → Bool) (stream : Nat → Cell) :
    (∃ j, j < 100 ∧ ok (stream j) = true ∧
      randomCellLoop ok stream 100 0 = stream j ∧
      ∀ j', j' < j → ok (stream j') = false) ∨
    ((∀ j, j < 100 → ok (stream j) = false) ∧
      randomCellLoop ok stream 100 0 = ⟨0, 0⟩) := by
  rcases randomCellLoop_cases ok stream 100 0 with ⟨j, _, h2, h3, h4, h5⟩ | ⟨hall, heq⟩
  · exact Or.inl ⟨j, by omega, h3, h4, fun j' hlt => h5 j' (Nat.zero_le j') hlt⟩
  · exact Or.inr ⟨fun j hlt => hall j (Nat.zero_le j) (by omega), heq⟩

lemma sampleCell_x_interval (cfg : GridConfig) (r1 r2 : ℚ) (c : Int)
    (h : 0 < cfg.GRID_COLS) :
    (sampleCell cfg r1 r2).x = c ↔
      (c : ℚ) / (cfg.GRID_COLS : ℚ) ≤ r1 ∧
        r1 < ((c : ℚ) + 1) / (cfg.GRID_COLS : ℚ) := by
  have hc : (0 : ℚ) < (cfg.GRID_COLS : ℚ) := by exact_mod_cast h
  unfold sampleCell
  rw [div_le_iff₀ hc, lt_div_iff₀ hc]
  exact Int.floor_eq_iff

lemma sampleCell_y_interval (cfg : GridConfig) (r1 r2 : ℚ) (c : Int)
    (h : 0 < cfg.GRID_ROWS) :
    (sampleCell cfg r1 r2).y = c ↔
      (c : ℚ) / (cfg.GRID_ROWS : ℚ) ≤ r2 ∧
        r2 < ((c : ℚ) + 1) / (cfg.GRID_ROWS : ℚ) := by
  have hc : (0 : ℚ) < (cfg.GRID_ROWS : ℚ) := by exact_mod_cast h
  unfold sampleCell
  rw [div_le_iff₀ hc, lt_div_iff₀ hc]
  exact Int.floor_eq_iff

end SamplingLemmas

/-- C9: both random empty-cell searches (Game.getRandomPosition and
CollisionSystem.findValidPosition) return the first drawn cell that passes
every exclusion test, rejecting every earlier colliding sample; when all
100 attempts collide they return the fallback cell (0, 0) -- the search is
a total function, it neither raises nor loops forever.  Uniformity of the
per-attempt draw: the sampling map floor (r * dims) sends each uniform
draw r in [0, 1) to cell index c exactly on the half-open interval
[c / dims, (c + 1) / dims), and these preimages all have the common width
1 / dims, one per grid index. -/
theorem C9_bounded_rejection_sampling (g : GameS) (cfg : GridConfig)
    (excludeFood excludePowerUps : Bool) (stream : Nat → Cell) :
    ((∃ j, j < 100 ∧ Game.cellFree g true (stream j) = true ∧
        Game.getRandomPosition g true stream = stream j ∧
        ∀ j', j' < j → Game.cellFree g true (stream j') = false) ∨
      ((∀ j, j < 100 → Game.cellFree g true (stream j) = false) ∧
        Game.getRandomPosition g true stream = ⟨0, 0⟩)) ∧
    ((∃ j, j < 100 ∧
        CollisionSystem.isValidPosition cfg g excludeFood excludePowerUps
          (stream j) = true ∧
        CollisionSystem.findValidPosition cfg g excludeFood excludePowerUps
          stream = stream j ∧
        ∀ j', j' < j →
          CollisionSystem.isValidPosition cfg g excludeFood excludePowerUps
            (stream j') = false) ∨
      ((∀ j, j < 100 →
          CollisionSystem.isValidPosition cfg g excludeFood excludePowerUps
            (stream j) = false) ∧
        CollisionSystem.findValidPosition cfg g excludeFood excludePowerUps
          stream = ⟨0, 0⟩)) ∧
    (∀ r1 r2 : ℚ, ∀ c : Int, 0 < cfg.GRID_COLS →
      ((sampleCell cfg r1 r2).x = c ↔
        (c : ℚ) / (cfg.GRID_COLS : ℚ) ≤ r1 ∧
          r1 < ((c : ℚ) + 1) / (cfg.GRID_COLS : ℚ))) ∧
    (∀ r1 r2 : ℚ, ∀ c : Int, 0 < cfg.GRID_ROWS →
      ((sampleCell cfg r1 r2).y = c ↔
        (c : ℚ) / (cfg.GRID_ROWS : ℚ) ≤ r2 ∧
          r2 < ((c : ℚ) + 1) / (cfg.GRID_ROWS : ℚ))) :=
  ⟨randomCellLoop_100_cases (Game.cellFree g true) stream,
    randomCellLoop_100_cases
      (CollisionSystem.isValidPosition cfg g excludeFood excludePowerUps) stream,
    fun r1 r2 c h => sampleCell_x_interval cfg r1 r2 c h,
    fun r1 r2 c h => sampleCell_y_interval cfg r1 r2 c h⟩

/-- C9 witness: the sampling theorem instantiated at the base state, the
30 by 20 grid and the constant sample stream at the free cell (7, 7). -/
theorem C9_bounded_rejection_sampling_witness :
    ((∃ j, j < 100 ∧ Game.cellFree baseGame true ((fun _ => (⟨7, 7⟩ : Cell)) j) = true ∧
        Game.getRandomPosition baseGame true (fun _ => ⟨7, 7⟩) =
          (fun _ => (⟨7, 7⟩ : Cell)) j ∧
        ∀ j', j' < j →
          Game.cellFree baseGame true ((fun _ => (⟨7, 7⟩ : Cell)) j') = false) ∨
      ((∀ j, j < 100 →
          Game.cellFree baseGame true ((fun _ => (⟨7, 7⟩ : Cell)) j) = false) ∧
        Game.getRandomPosition baseGame true (fun _ => ⟨7, 7⟩) = ⟨0, 0⟩)) ∧
    ((∃ j, j < 100 ∧
        CollisionSystem.isValidPosition ⟨30, 20⟩ baseGame false false
          ((fun _ => (⟨7, 7⟩ : Cell)) j) = true ∧
        CollisionSystem.findValidPosition ⟨30, 20⟩ baseGame false false
          (fun _ => ⟨7, 7⟩) = (fun _ => (⟨7, 7⟩ : Cell)) j ∧
        ∀ j', j' < j →
          CollisionSystem.isValidPosition ⟨30, 20⟩ baseGame false false
            ((fun _ => (⟨7, 7⟩ : Cell)) j') = false) ∨
      ((∀ j, j < 100 →
          CollisionSystem.isValidPosition ⟨30, 20⟩ baseGame false false
            ((fun _ => (⟨7, 7⟩ : Cell)) j) = false) ∧
        CollisionSystem.findValidPosition ⟨30, 20⟩ baseGame false false
          (fun _ => ⟨7, 7⟩) = ⟨0, 0⟩)) ∧
    (∀ r1 r2 : ℚ, ∀ c : Int, 0 < (⟨30, 20⟩ : GridConfig).GRID_COLS →
      ((sampleCell ⟨30, 20⟩ r1 r2).x = c ↔
        (c : ℚ) / ((⟨30, 20⟩ : GridConfig).GRID_COLS : ℚ) ≤ r1 ∧
          r1 < ((c : ℚ) + 1) / ((⟨30, 20⟩ : GridConfig).GRID_COLS : ℚ))) ∧
    (∀ r1 r2 : ℚ, ∀ c : Int, 0 < (⟨30, 20⟩ : GridConfig).GRID_ROWS →
      ((sampleCell ⟨30, 20⟩ r1 r2).y = c ↔
        (c : ℚ) / ((⟨30, 20⟩ : GridConfig).GRID_ROWS : ℚ) ≤ r2 ∧
          r2 < ((c : ℚ) + 1) / ((⟨30, 20⟩ : GridConfig).GRID_ROWS : ℚ))) :=
  C9_bounded_rejection_sampling baseGame ⟨30, 20⟩ false false (fun _ => ⟨7, 7⟩)

end MetalSnake
